import Mathlib

/-!
Verification development for the mysql-mcp-server repository.

The program is a line-delimited JSON-RPC server (file mysql-mcp-server.js,
current revision) exposing three MySQL tools. We shallowly embed the two
nontrivial parts:

* `executeWithTimeout` (lines 74-132): the timeout-bounded query executor.
  The asynchronous interactions with the connection pool and the database
  are resolved by an explicit environment `ExecEnv` that fixes the outcome
  of every external call (which connection the pool hands out, the session
  id returned by `SELECT CONNECTION_ID()`, whether the statement settles
  before the deadline, and the outcomes of the kill step). The embedding
  returns the list of pool/database events performed together with the
  result of the call.

* `handleRequest` (lines 159-340) and the per-line output logic of `main`
  (lines 352-362): the JSON-RPC dispatcher. `JSON.parse` is modelled
  abstractly by the `InputLine` type (a line either fails to parse or
  yields a destructured envelope), and `JSON.stringify` by an abstract
  serialization parameter, since both are host-runtime builtins, not code
  of this repository.
-/

set_option autoImplicit false

namespace MysqlMcp

/-- Minimal JSON value model for envelope ids, results and row sets. -/
inductive Json where
  | null : Json
  | bool : Bool → Json
  | num : Int → Json
  | str : String → Json
  | arr : List Json → Json
  | obj : List (String × Json) → Json

/-- Observable pool and database events performed by `executeWithTimeout`:
acquiring a connection from the pool, issuing a statement on a connection,
releasing a connection back to the pool. Connections are identified by the
handle the pool hands out. -/
inductive Event where
  | getConn : Nat → Event
  | query : Nat → String → Event
  | release : Nat → Event
deriving DecidableEq

/-- Line 53 of the source: `parseInt(process.env.DB_QUERY_TIMEOUT) || 10`.
The argument is the parsed value of the environment variable (`none` when
the variable is absent or does not parse to a number, in which case
`parseInt` yields `NaN`, which is falsy; the parsed value `0` is also
falsy). -/
def timeoutSecondsOf (dbQueryTimeout : Option Nat) : Nat :=
  match dbQueryTimeout with
  | some n => if n = 0 then 10 else n
  | none => 10

/-- Line 54 of the source: `queryTimeout = timeoutSeconds * 1000` (the
global timeout, in milliseconds). -/
def queryTimeoutOf (dbQueryTimeout : Option Nat) : Nat :=
  timeoutSecondsOf dbQueryTimeout * 1000

/-- Model of the JavaScript `String.prototype.trim` over the common
whitespace characters: drop leading and trailing whitespace. Implemented
over the character list so that it evaluates by kernel reduction. -/
def jsTrim (s : String) : String :=
  ⟨(((s.data.dropWhile Char.isWhitespace).reverse).dropWhile Char.isWhitespace).reverse⟩

/-- Model of the JavaScript `String.prototype.toUpperCase` on ASCII. -/
def upperString (s : String) : String :=
  ⟨s.data.map Char.toUpper⟩

/-- Model of the JavaScript `String.prototype.startsWith`. -/
def jsStartsWith (s p : String) : Bool :=
  p.data.isPrefixOf s.data

/-- Characterwise prefix of a string (used to express what a pure
insertion after the keyword would produce). -/
def jsTake (s : String) (n : Nat) : String :=
  ⟨s.data.take n⟩

/-- Characterwise removal of the first `n` characters of a string. -/
def jsDrop (s : String) (n : Nat) : String :=
  ⟨s.data.drop n⟩

/-- Lines 104-109 of the source: the statement text actually executed.
The input is trimmed; if the trimmed text starts (case-insensitively) with
`SELECT`, the regex `replace(/^SELECT/i, ...)` substitutes the matched six
characters by the literal replacement string, which is the uppercase
keyword followed by the `MAX_EXECUTION_TIME` hint in milliseconds. -/
def executedSql (queryTimeout : Nat) (sql : String) : String :=
  if jsStartsWith (upperString (jsTrim sql)) "SELECT" then
    "SELECT /*+ MAX_EXECUTION_TIME(" ++ toString queryTimeout ++ ") */" ++ jsDrop (jsTrim sql) 6
  else jsTrim sql

/-- Line 100 of the source: the message of the error rejecting the call on
the timeout path, stating the duration in seconds and advising retry. -/
def timeoutMessage (timeoutSeconds : Nat) : String :=
  "查询超时：查询执行超过 " ++ toString timeoutSeconds ++ " 秒未响应，已自动终止。请重新尝试执行！"

/-- Line 85 of the source: the statement used to learn the session id of
the borrowed connection. -/
def connIdSql : String := "SELECT CONNECTION_ID() as id"

/-- Which side of `Promise.race([queryPromise, timeoutPromise])` settles
first: the statement execution settles (with a `[rows, fields]` value or a
database error), or the deadline timer fires first. -/
inductive RaceOutcome where
  | completes : Except String (Json × Json) → RaceOutcome
  | timeout : RaceOutcome

/-- Environment resolving every external interaction of one
`executeWithTimeout` call: the pool hand-outs and the database answers. -/
structure ExecEnv where
  mainAcquire : Except String Nat
  connIdQuery : Except String Nat
  race : RaceOutcome
  killAcquire : Except String Nat
  killQuery : Except String Unit

/-- Lines 90-98 of the source: the body of the deadline timer. A fresh
connection is acquired from the pool and a targeted `KILL QUERY` is issued
against the recorded session id; the `release` of the kill connection
(line 95) runs only when the kill statement succeeded, and any error of
the step is swallowed by the empty catch block. -/
def killEvents (env : ExecEnv) (connId : Nat) : List Event :=
  match env.killAcquire with
  | .error _ => []
  | .ok killConn =>
    match env.killQuery with
    | .ok _ =>
        [Event.getConn killConn, Event.query killConn ("KILL QUERY " ++ toString connId),
         Event.release killConn]
    | .error _ =>
        [Event.getConn killConn, Event.query killConn ("KILL QUERY " ++ toString connId)]

/-- Lines 74-132 of the source: acquire a connection, learn its session
id, rewrite the statement, race execution against the deadline, and in a
`finally` step release the borrowed connection whenever it was acquired.
Returns the event trace and the result of the call. -/
def executeWithTimeout (env : ExecEnv) (queryTimeout : Nat) (sql : String) :
    List Event × Except String (Json × Json) :=
  let timeoutSeconds := queryTimeout / 1000
  match env.mainAcquire with
  | .error e => ([], .error e)
  | .ok conn =>
    match env.connIdQuery with
    | .error e => ([Event.getConn conn, Event.query conn connIdSql] ++ [Event.release conn], .error e)
    | .ok connId =>
      match env.race with
      | .completes res =>
          ([Event.getConn conn, Event.query conn connIdSql,
            Event.query conn (executedSql queryTimeout sql)] ++ [Event.release conn], res)
      | .timeout =>
          ([Event.getConn conn, Event.query conn connIdSql,
            Event.query conn (executedSql queryTimeout sql)]
            ++ killEvents env connId ++ [Event.release conn],
           .error (timeoutMessage timeoutSeconds))

/-- The arguments object of a `tools/call` request (`params.arguments`).
A `none` field models an absent (undefined) property. -/
structure ToolArgs where
  sql : Option String
  table : Option String

/-- The `params` object of a `tools/call` request. -/
structure CallParams where
  name : Option String
  toolArguments : Option ToolArgs

/-- A successfully parsed JSON-RPC envelope, destructured as on line 174
of the source: `const \x7b id, method, params \x7d = requestData`. A `none`
id models an absent `id` property (distinct from `some Json.null`). -/
structure ParsedRequest where
  id : Option Json
  method : Option String
  params : Option CallParams

/-- One input line, after the `JSON.parse` attempt of lines 161-163:
either the parse throws, or it yields an envelope. -/
inductive InputLine where
  | malformed : InputLine
  | parsed : ParsedRequest → InputLine

/-- A JSON-RPC error object `\x7bcode, message\x7d`. -/
structure RpcError where
  code : Int
  message : String

/-- A non-null response of `handleRequest`: a result envelope or an error
envelope, both carrying the id of the request. -/
inductive Response where
  | success : Json → Json → Response
  | failure : Json → RpcError → Response

/-- Line 177 of the source: `id === undefined || id === null`. -/
def isNullish : Option Json → Bool
  | none => true
  | some Json.null => true
  | some _ => false

/-- The id value placed in a response envelope (only used once the
notification check has ruled out an absent id). -/
def idValue : Option Json → Json
  | some v => v
  | none => Json.null

/-- JavaScript template interpolation of a possibly-undefined string value
(an absent value renders as the text `undefined`). -/
def jsStr : Option String → String
  | some s => s
  | none => "undefined"

/-- Models the TypeError message raised on line 256 when `params` is
undefined and destructuring it fails. The exact host-runtime text is not
load-bearing for any claim. -/
def destructureParamsMessage : String :=
  "Cannot destructure property name of params as it is undefined"

/-- Models the TypeError message raised on line 259 when `args` is
undefined and `args.sql` is read. -/
def readSqlMessage : String :=
  "Cannot read properties of undefined (reading sql)"

/-- Models the TypeError message raised on line 295 when `args` is
undefined and `args.table` is read while building the statement text. -/
def readTableMessage : String :=
  "Cannot read properties of undefined (reading table)"

/-- Models the TypeError message raised inside `executeWithTimeout` when
it is invoked with an undefined statement and `sql.trim()` is read. -/
def readTrimMessage : String :=
  "Cannot read properties of undefined (reading trim)"

/-- Lines 193-207 of the source: the static `initialize` result. -/
def initializeResult : Json :=
  Json.obj
    [("protocolVersion", Json.str "2024-11-05"),
     ("capabilities", Json.obj [("tools", Json.obj [])]),
     ("serverInfo", Json.obj [("name", Json.str "mysql-server"), ("version", Json.str "1.0.0")])]

/-- Lines 215-228 of the source: the `query` tool descriptor. -/
def queryToolJson : Json :=
  Json.obj
    [("name", Json.str "query"),
     ("description", Json.str "执行 SQL 查询"),
     ("inputSchema", Json.obj
       [("type", Json.str "object"),
        ("properties", Json.obj
          [("sql", Json.obj
            [("type", Json.str "string"),
             ("description", Json.str "SQL 查询语句")])]),
        ("required", Json.arr [Json.str "sql"])])]

/-- Lines 229-236 of the source: the `list_tables` tool descriptor. -/
def listTablesToolJson : Json :=
  Json.obj
    [("name", Json.str "list_tables"),
     ("description", Json.str "列出所有数据表"),
     ("inputSchema", Json.obj
       [("type", Json.str "object"),
        ("properties", Json.obj [])])]

/-- Lines 237-250 of the source: the `describe_table` tool descriptor. -/
def describeTableToolJson : Json :=
  Json.obj
    [("name", Json.str "describe_table"),
     ("description", Json.str "查看表结构"),
     ("inputSchema", Json.obj
       [("type", Json.str "object"),
        ("properties", Json.obj
          [("table", Json.obj
            [("type", Json.str "string"),
             ("description", Json.str "表名")])]),
        ("required", Json.arr [Json.str "table"])])]

/-- Lines 210-253 of the source: the static `tools/list` result with the
three tool descriptors. -/
def toolsListResult : Json :=
  Json.obj [("tools", Json.arr [queryToolJson, listTablesToolJson, describeTableToolJson])]

/-- Shape of every `tools/call` success result: one text content item. -/
def textContentResult (text : String) : Json :=
  Json.obj
    [("content", Json.arr
      [Json.obj [("type", Json.str "text"), ("text", Json.str text)]])]

/-- Field lookup on a JSON object (property access on a row value). -/
def getField (row : Json) (key : String) : Option Json :=
  match row with
  | Json.obj fs => (fs.find? (fun p => p.1 == key)).map (fun p => p.2)
  | _ => none

/-- Line 278 of the source, per row: `\x7bname: row.Name, comment: row.Comment || two-empty-quotes\x7d`.
An absent property is modelled as JSON null; a non-string or absent
comment falls back to the empty string, modelling the falsy-or default
for the row shapes `SHOW TABLE STATUS` returns. -/
def tableRow (row : Json) : Json :=
  Json.obj
    [("name", (getField row "Name").getD Json.null),
     ("comment",
       match getField row "Comment" with
       | some (Json.str s) => Json.str s
       | _ => Json.str "")]

/-- Line 278 of the source: `tables.map(...)`; a non-array result makes
the map call throw. -/
def tableInfoOf (tables : Json) : Except String Json :=
  match tables with
  | Json.arr rows => Except.ok (Json.arr (rows.map tableRow))
  | _ => Except.error "tables.map is not a function"

/-- Lines 159-340 of the source: handle one input line. The executor is
abstracted by `exec`, mapping the (possibly undefined) statement argument
to the settled result of `executeWithTimeout`; serialization of row sets
(`JSON.stringify(rows, null, 2)`) is abstracted by `stringify`. Returns
the response (`none` models the `return null` paths, which `main`
suppresses) together with the list of arguments passed to
`executeWithTimeout` while handling the line. -/
def handleRequest (stringify : Json → String)
    (exec : Option String → Except String (Json × Json)) (line : InputLine) :
    Option Response × List (Option String) :=
  match line with
  | .malformed => (some (Response.failure Json.null ⟨-32700, "Parse error"⟩), [])
  | .parsed r =>
    if isNullish r.id then (none, [])
    else
      let idv := idValue r.id
      match r.method with
      | some "initialize" => (some (Response.success idv initializeResult), [])
      | some "tools/list" => (some (Response.success idv toolsListResult), [])
      | some "tools/call" =>
        match r.params with
        | none => (some (Response.failure idv ⟨-32603, destructureParamsMessage⟩), [])
        | some p =>
          if p.name = some "query" then
            match p.toolArguments with
            | none => (some (Response.failure idv ⟨-32603, readSqlMessage⟩), [])
            | some args =>
              match exec args.sql with
              | .ok (rows, _) =>
                  (some (Response.success idv (textContentResult (stringify rows))), [args.sql])
              | .error m => (some (Response.failure idv ⟨-32603, m⟩), [args.sql])
          else if p.name = some "list_tables" then
            match exec (some "SHOW TABLE STATUS") with
            | .ok (tables, _) =>
              match tableInfoOf tables with
              | .ok info =>
                  (some (Response.success idv (textContentResult (stringify info))),
                   [some "SHOW TABLE STATUS"])
              | .error m =>
                  (some (Response.failure idv ⟨-32603, m⟩), [some "SHOW TABLE STATUS"])
            | .error m => (some (Response.failure idv ⟨-32603, m⟩), [some "SHOW TABLE STATUS"])
          else if p.name = some "describe_table" then
            match p.toolArguments with
            | none => (some (Response.failure idv ⟨-32603, readTableMessage⟩), [])
            | some args =>
              match exec (some ("SHOW FULL COLUMNS FROM " ++ jsStr args.table)) with
              | .ok (cols, _) =>
                  (some (Response.success idv (textContentResult (stringify cols))),
                   [some ("SHOW FULL COLUMNS FROM " ++ jsStr args.table)])
              | .error m =>
                  (some (Response.failure idv ⟨-32603, m⟩),
                   [some ("SHOW FULL COLUMNS FROM " ++ jsStr args.table)])
          else (some (Response.failure idv ⟨-32603, "未知的工具: " ++ jsStr p.name⟩), [])
      | m => (some (Response.failure idv ⟨-32601, "未知的方法: " ++ jsStr m⟩), [])

/-- Lines 329-334 of the source: the JSON envelope of a response. -/
def responseJson : Response → Json
  | .success i res =>
      Json.obj [("jsonrpc", Json.str "2.0"), ("id", i), ("result", res)]
  | .failure i e =>
      Json.obj [("jsonrpc", Json.str "2.0"), ("id", i),
                ("error", Json.obj [("code", Json.num e.code), ("message", Json.str e.message)])]

/-- Lines 352-362 of the source: the output the server writes for one
input line — nothing for a null response, otherwise one serialized
envelope line. -/
def mainOutput (stringify : Json → String)
    (exec : Option String → Except String (Json × Json)) (line : InputLine) : Option String :=
  match (handleRequest stringify exec line).1 with
  | none => none
  | some resp => some (stringify (responseJson resp))

/-- The executor oracle handed to the dispatcher: invoking
`executeWithTimeout` on a statement under environment `env`; an undefined
argument raises the trim TypeError inside the executor. -/
def execOf (env : ExecEnv) (queryTimeout : Nat) : Option String → Except String (Json × Json)
  | some sql => (executeWithTimeout env queryTimeout sql).2
  | none => Except.error readTrimMessage

/-- C5: for every input line that is not valid JSON, the server outputs
exactly one envelope with `jsonrpc` 2.0, a null id and the error object
with code -32700 and message Parse error — emitted despite the null id,
because the parse failure is handled before the id is extracted. -/
theorem malformed_line_yields_parse_error (stringify : Json → String)
    (exec : Option String → Except String (Json × Json)) :
    handleRequest stringify exec InputLine.malformed
      = (some (Response.failure Json.null ⟨-32700, "Parse error"⟩), [])
    ∧ mainOutput stringify exec InputLine.malformed
      = some (stringify (responseJson (Response.failure Json.null ⟨-32700, "Parse error"⟩))) :=
  ⟨rfl, rfl⟩

/-- C4: every envelope that parses and has an absent or null id produces
no output line, for every method value and every executor behaviour, even
when handling the method would raise an error. -/
theorem notification_produces_no_output (stringify : Json → String)
    (exec : Option String → Except String (Json × Json)) (r : ParsedRequest)
    (h : isNullish r.id = true) :
    handleRequest stringify exec (InputLine.parsed r) = (none, [])
    ∧ mainOutput stringify exec (InputLine.parsed r) = none := by
  refine ⟨?_, ?_⟩ <;> simp [handleRequest, mainOutput, h]

/-- Witness for C4 at a concrete notification whose method is a tool call
that would error. -/
theorem notification_produces_no_output_witness :
    isNullish (some Json.null) = true
    ∧ handleRequest (fun _ => "") (fun _ => Except.error "boom")
        (InputLine.parsed ⟨some Json.null, some "tools/call",
          some ⟨some "query", some ⟨some "SELECT 1", none⟩⟩⟩) = (none, [])
    ∧ mainOutput (fun _ => "") (fun _ => Except.error "boom")
        (InputLine.parsed ⟨some Json.null, some "tools/call",
          some ⟨some "query", some ⟨some "SELECT 1", none⟩⟩⟩) = none :=
  ⟨rfl, notification_produces_no_output _ _ _ rfl⟩

/-- C9: the notification check precedes the method switch, so an envelope
with an absent or null id — even one whose method is `tools/call` — is
discarded before dispatch: no tool handler runs and `executeWithTimeout`
is never invoked (the recorded executor-call list is empty) for every
method. -/
theorem notification_invokes_no_database_operation (stringify : Json → String)
    (exec : Option String → Except String (Json × Json))
    (idv : Option Json) (p : Option CallParams)
    (h : isNullish idv = true) :
    handleRequest stringify exec (InputLine.parsed ⟨idv, some "tools/call", p⟩) = (none, [])
    ∧ ∀ m : Option String,
        (handleRequest stringify exec (InputLine.parsed ⟨idv, m, p⟩)).2 = [] := by
  refine ⟨?_, fun m => ?_⟩ <;> simp [handleRequest, h]

/-- Witness for C9 at a concrete tool-call notification. -/
theorem notification_invokes_no_database_operation_witness :
    isNullish (none : Option Json) = true
    ∧ handleRequest (fun _ => "") (fun _ => Except.ok (Json.arr [], Json.null))
        (InputLine.parsed ⟨none, some "tools/call",
          some ⟨some "query", some ⟨some "SELECT 1", none⟩⟩⟩) = (none, [])
    ∧ ∀ m : Option String,
        (handleRequest (fun _ => "") (fun _ => Except.ok (Json.arr [], Json.null))
          (InputLine.parsed ⟨none, m, some ⟨some "query", some ⟨some "SELECT 1", none⟩⟩⟩)).2 = [] :=
  ⟨rfl, notification_invokes_no_database_operation _ _ _ _ rfl⟩

/-- C8: for every `tools/list` request with a non-null id the result is
the same static array of the three tool descriptors, independent of the
executor (hence of any database or pool state) and of the params, so
repeated calls with the same id serialize to byte-identical output. -/
theorem tools_list_is_static (stringify : Json → String)
    (exec exec2 : Option String → Except String (Json × Json))
    (i : Json) (p p2 : Option CallParams)
    (h : isNullish (some i) = false) :
    handleRequest stringify exec (InputLine.parsed ⟨some i, some "tools/list", p⟩)
      = (some (Response.success i toolsListResult), [])
    ∧ mainOutput stringify exec (InputLine.parsed ⟨some i, some "tools/list", p⟩)
      = mainOutput stringify exec2 (InputLine.parsed ⟨some i, some "tools/list", p2⟩) := by
  refine ⟨?_, ?_⟩ <;> simp [handleRequest, mainOutput, h, idValue]

/-- Witness for C8 at id 1 with two different executors and params. -/
theorem tools_list_is_static_witness :
    isNullish (some (Json.num 1)) = false
    ∧ handleRequest (fun _ => "out") (fun _ => Except.error "down")
        (InputLine.parsed ⟨some (Json.num 1), some "tools/list", none⟩)
      = (some (Response.success (Json.num 1) toolsListResult), [])
    ∧ mainOutput (fun _ => "out") (fun _ => Except.error "down")
        (InputLine.parsed ⟨some (Json.num 1), some "tools/list", none⟩)
      = mainOutput (fun _ => "out") (fun _ => Except.ok (Json.arr [], Json.null))
        (InputLine.parsed ⟨some (Json.num 1), some "tools/list",
          some ⟨some "query", none⟩⟩) :=
  ⟨rfl, tools_list_is_static _ _ _ _ _ _ rfl⟩

/-- C7: a `tools/call` request with a non-null id whose tool name is none
of query, list_tables, describe_table fails with an error envelope of
code -32603 whose message names the unrecognized tool, and no call to
`executeWithTimeout` is made while handling it. -/
theorem unknown_tool_fails_without_database_call (stringify : Json → String)
    (exec : Option String → Except String (Json × Json))
    (i : Json) (p : CallParams) (n : String)
    (h : isNullish (some i) = false) (hn : p.name = some n)
    (hq : n ≠ "query") (hl : n ≠ "list_tables") (hd : n ≠ "describe_table") :
    handleRequest stringify exec (InputLine.parsed ⟨some i, some "tools/call", some p⟩)
      = (some (Response.failure i ⟨-32603, "未知的工具: " ++ n⟩), []) := by
  simp [handleRequest, h, hn, hq, hl, hd, idValue, jsStr]

/-- Witness for C7 at the concrete unrecognized tool name drop_table. -/
theorem unknown_tool_fails_without_database_call_witness :
    isNullish (some (Json.num 5)) = false
    ∧ (⟨some "drop_table", none⟩ : CallParams).name = some "drop_table"
    ∧ "drop_table" ≠ "query" ∧ "drop_table" ≠ "list_tables" ∧ "drop_table" ≠ "describe_table"
    ∧ handleRequest (fun _ => "") (fun _ => Except.error "never")
        (InputLine.parsed ⟨some (Json.num 5), some "tools/call", some ⟨some "drop_table", none⟩⟩)
      = (some (Response.failure (Json.num 5) ⟨-32603, "未知的工具: " ++ "drop_table"⟩), []) :=
  ⟨rfl, rfl, by decide, by decide, by decide,
   unknown_tool_fails_without_database_call _ _ _ _ _ rfl rfl
     (by decide) (by decide) (by decide)⟩

/-- C3 counterexample: on the lowercase statement `select 1` the executed
text is not the original text with the hint inserted immediately after the
SELECT keyword — the regex replacement also normalizes the matched keyword
to uppercase, so the original spelling of the keyword is not preserved. -/
theorem select_hint_not_pure_insertion :
    executedSql 10000 "select 1" = "SELECT /*+ MAX_EXECUTION_TIME(10000) */ 1"
    ∧ executedSql 10000 "select 1"
        ≠ jsTake (jsTrim "select 1") 6 ++ " /*+ MAX_EXECUTION_TIME(10000) */"
          ++ jsDrop (jsTrim "select 1") 6 := by
  constructor <;> decide

/-- C3 (amended): for every statement whose trimmed text begins
case-insensitively with SELECT, the executed text is the keyword
normalized to uppercase SELECT, followed by the inline
MAX_EXECUTION_TIME hint whose value is the configured timeout in
milliseconds (configured seconds times 1000), followed by the remainder
of the trimmed statement; statements not beginning with SELECT get no
hint. -/
theorem select_hint_rewrite (e : Option Nat) (sql : String)
    (h : jsStartsWith (upperString (jsTrim sql)) "SELECT" = true) :
    executedSql (queryTimeoutOf e) sql
      = "SELECT /*+ MAX_EXECUTION_TIME(" ++ toString (queryTimeoutOf e) ++ ") */"
        ++ jsDrop (jsTrim sql) 6
    ∧ queryTimeoutOf e = timeoutSecondsOf e * 1000
    ∧ ∀ s2 : String, jsStartsWith (upperString (jsTrim s2)) "SELECT" = false →
        executedSql (queryTimeoutOf e) s2 = jsTrim s2 := by
  refine ⟨by simp [executedSql, h], rfl, fun s2 h2 => by simp [executedSql, h2]⟩

/-- Witness for C3 at a ten-second configured timeout and the statement
SELECT 1. -/
theorem select_hint_rewrite_witness :
    jsStartsWith (upperString (jsTrim "SELECT 1")) "SELECT" = true
    ∧ (executedSql (queryTimeoutOf (some 10)) "SELECT 1"
        = "SELECT /*+ MAX_EXECUTION_TIME(" ++ toString (queryTimeoutOf (some 10)) ++ ") */"
          ++ jsDrop (jsTrim "SELECT 1") 6
      ∧ queryTimeoutOf (some 10) = timeoutSecondsOf (some 10) * 1000
      ∧ ∀ s2 : String, jsStartsWith (upperString (jsTrim s2)) "SELECT" = false →
          executedSql (queryTimeoutOf (some 10)) s2 = jsTrim s2) :=
  ⟨by decide, select_hint_rewrite (some 10) "SELECT 1" (by decide)⟩

/-- C6 counterexample: a whitespace-only statement is not passed through
to the database unmodified — the executor trims it first, so the single
space executes as the empty string. -/
theorem whitespace_sql_not_unmodified :
    executedSql 10000 " " = "" ∧ executedSql 10000 " " ≠ " " := by
  constructor <;> decide

/-- C6 (amended): an empty or whitespace-only statement is passed to the
database as its trimmed text, the empty string, with no special
validation — the happy-path query event still carries it to the
database; and the statement text is never inspected beyond trimming and
the case-insensitive SELECT prefix check (the executed text depends only
on the trimmed text). -/
theorem whitespace_sql_executes_trimmed (qt : Nat) (sql : String) (h : jsTrim sql = "") :
    executedSql qt sql = ""
    ∧ jsStartsWith (upperString (jsTrim sql)) "SELECT" = false
    ∧ (∀ s1 s2 : String, jsTrim s1 = jsTrim s2 →
        executedSql qt s1 = executedSql qt s2)
    ∧ ∀ (env : ExecEnv) (c cid : Nat), env.mainAcquire = Except.ok c →
        env.connIdQuery = Except.ok cid →
        Event.query c "" ∈ (executeWithTimeout env qt sql).1 := by
  have h1 : executedSql qt sql = "" := by unfold executedSql; rw [h]; rfl
  refine ⟨h1, by rw [h]; rfl, fun s1 s2 h12 => by unfold executedSql; rw [h12], ?_⟩
  intro env c cid hma hcid
  obtain ⟨ma, ciq, race, ka, kq⟩ := env
  dsimp only at hma hcid
  subst hma
  subst hcid
  cases race <;> simp [executeWithTimeout, h1]

/-- Witness for C6 at the single-space statement. -/
theorem whitespace_sql_executes_trimmed_witness :
    jsTrim " " = ""
    ∧ (executedSql 10000 " " = ""
      ∧ jsStartsWith (upperString (jsTrim " ")) "SELECT" = false
      ∧ (∀ s1 s2 : String, jsTrim s1 = jsTrim s2 →
          executedSql 10000 s1 = executedSql 10000 s2)
      ∧ ∀ (env : ExecEnv) (c cid : Nat), env.mainAcquire = Except.ok c →
          env.connIdQuery = Except.ok cid →
          Event.query c "" ∈ (executeWithTimeout env 10000 " ").1) :=
  ⟨by decide, whitespace_sql_executes_trimmed 10000 " " (by decide)⟩

/-- Helper: whenever a connection was acquired, the event trace of
`executeWithTimeout` ends with the release of that connection, and the
connection is not released anywhere earlier in the trace (assuming the
pool never hands the kill step the still-borrowed connection). -/
theorem executeWithTimeout_trace_shape (env : ExecEnv) (qt : Nat) (sql : String)
    (c : Nat) (hma : env.mainAcquire = Except.ok c)
    (hsep : ∀ kc, env.killAcquire = Except.ok kc → kc ≠ c) :
    ∃ front : List Event,
      (executeWithTimeout env qt sql).1 = front ++ [Event.release c]
      ∧ Event.release c ∉ front := by
  obtain ⟨ma, ciq, race, ka, kq⟩ := env
  dsimp only at hma hsep
  subst hma
  cases ciq with
  | error e => exact ⟨_, rfl, by simp [executeWithTimeout]⟩
  | ok cid =>
    cases race with
    | completes res => exact ⟨_, rfl, by simp [executeWithTimeout]⟩
    | timeout =>
      cases ka with
      | error e => exact ⟨_, rfl, by simp [executeWithTimeout, killEvents]⟩
      | ok kc =>
        have hne : ¬(c = kc) := fun hc => hsep kc rfl hc.symm
        cases kq with
        | ok u => exact ⟨_, rfl, by simp [executeWithTimeout, killEvents, hne]⟩
        | error e2 => exact ⟨_, rfl, by simp [executeWithTimeout, killEvents, hne]⟩

/-- C2: on every exit path of `executeWithTimeout` in which the pool
handed out a connection — successful result, database error, and timeout
alike — that borrowed connection is released back to the pool exactly
once, and the release is the final event of the call. -/
theorem borrowed_connection_released_exactly_once (env : ExecEnv) (qt : Nat) (sql : String)
    (c : Nat) (hma : env.mainAcquire = Except.ok c)
    (hsep : ∀ kc, env.killAcquire = Except.ok kc → kc ≠ c) :
    (executeWithTimeout env qt sql).1.count (Event.release c) = 1
    ∧ ∃ front : List Event, (executeWithTimeout env qt sql).1 = front ++ [Event.release c] := by
  obtain ⟨front, hf, hnot⟩ := executeWithTimeout_trace_shape env qt sql c hma hsep
  refine ⟨?_, front, hf⟩
  rw [hf, List.count_append, List.count_eq_zero.mpr hnot]
  simp

/-- Witness for C2 on the timeout path with a distinct kill connection. -/
theorem borrowed_connection_released_exactly_once_witness :
    (⟨Except.ok 1, Except.ok 42, RaceOutcome.timeout, Except.ok 2,
        Except.error "kill failed"⟩ : ExecEnv).mainAcquire = Except.ok 1
    ∧ (∀ kc, (⟨Except.ok 1, Except.ok 42, RaceOutcome.timeout, Except.ok 2,
        Except.error "kill failed"⟩ : ExecEnv).killAcquire = Except.ok kc → kc ≠ 1)
    ∧ ((executeWithTimeout
        ⟨Except.ok 1, Except.ok 42, RaceOutcome.timeout, Except.ok 2, Except.error "kill failed"⟩
        10000 "SELECT 1").1.count (Event.release 1) = 1
      ∧ ∃ front : List Event,
          (executeWithTimeout
            ⟨Except.ok 1, Except.ok 42, RaceOutcome.timeout, Except.ok 2, Except.error "kill failed"⟩
            10000 "SELECT 1").1 = front ++ [Event.release 1]) :=
  ⟨rfl, fun kc hkc => by cases hkc; decide,
   borrowed_connection_released_exactly_once _ _ _ _ rfl
     (fun kc hkc => by cases hkc; decide)⟩

/-- C10: on the timeout path, once the kill connection has been acquired,
it is released back to the pool only when the `KILL QUERY` statement
succeeds; if the kill statement errors, the release is skipped (the kill
connection leaks) while the kill error itself is swallowed — the call
still fails with the timeout error. -/
theorem kill_connection_released_only_on_kill_success (env : ExecEnv) (qt : Nat)
    (sql : String) (c cid kc : Nat)
    (hma : env.mainAcquire = Except.ok c) (hcid : env.connIdQuery = Except.ok cid)
    (hrace : env.race = RaceOutcome.timeout) (hka : env.killAcquire = Except.ok kc)
    (hne : kc ≠ c) :
    (∀ err : String, env.killQuery = Except.error err →
        Event.getConn kc ∈ (executeWithTimeout env qt sql).1
        ∧ Event.release kc ∉ (executeWithTimeout env qt sql).1)
    ∧ (env.killQuery = Except.ok () →
        Event.release kc ∈ (executeWithTimeout env qt sql).1)
    ∧ (executeWithTimeout env qt sql).2 = Except.error (timeoutMessage (qt / 1000)) := by
  obtain ⟨ma, ciq, race, ka, kq⟩ := env
  dsimp only at hma hcid hrace hka
  subst hma
  subst hcid
  subst hrace
  subst hka
  refine ⟨fun err herr => ?_, fun hok => ?_, ?_⟩
  · dsimp only at herr
    subst herr
    refine ⟨by simp [executeWithTimeout, killEvents], ?_⟩
    simp [executeWithTimeout, killEvents, hne]
  · dsimp only at hok
    subst hok
    simp [executeWithTimeout, killEvents]
  · simp [executeWithTimeout]

/-- Witness for C10 with a failing kill statement: the kill connection 2
is acquired and never released, while the call still fails with the
timeout message. -/
theorem kill_connection_leak_witness :
    (⟨Except.ok 1, Except.ok 42, RaceOutcome.timeout, Except.ok 2,
        Except.error "server gone"⟩ : ExecEnv).killQuery = Except.error "server gone"
    ∧ Event.getConn 2 ∈ (executeWithTimeout
        ⟨Except.ok 1, Except.ok 42, RaceOutcome.timeout, Except.ok 2, Except.error "server gone"⟩
        10000 "SELECT 1").1
    ∧ Event.release 2 ∉ (executeWithTimeout
        ⟨Except.ok 1, Except.ok 42, RaceOutcome.timeout, Except.ok 2, Except.error "server gone"⟩
        10000 "SELECT 1").1
    ∧ (executeWithTimeout
        ⟨Except.ok 1, Except.ok 42, RaceOutcome.timeout, Except.ok 2, Except.error "server gone"⟩
        10000 "SELECT 1").2 = Except.error (timeoutMessage (10000 / 1000)) := by
  have h := kill_connection_released_only_on_kill_success
    ⟨Except.ok 1, Except.ok 42, RaceOutcome.timeout, Except.ok 2, Except.error "server gone"⟩
    10000 "SELECT 1" 1 42 2 rfl rfl rfl rfl (by decide)
  exact ⟨rfl, (h.1 "server gone" rfl).1, (h.1 "server gone" rfl).2, h.2.2⟩

/-- C1: whenever the deadline fires before the statement settles, the
deadline branch acquires a separate pooled connection and issues the
targeted `KILL QUERY` against the session identifier obtained from the
borrowed connection; any error of the kill step is swallowed (the result
does not depend on the kill outcomes); the call fails with the timeout
error whose message states the configured duration in seconds and advises
retrying; and the dispatcher surfaces this failure as an error envelope
with code -32603. -/
theorem timeout_path_kills_and_surfaces_error (e : Option Nat) (env : ExecEnv)
    (sql : String) (c cid : Nat)
    (hma : env.mainAcquire = Except.ok c)
    (hcid : env.connIdQuery = Except.ok cid)
    (hrace : env.race = RaceOutcome.timeout) :
    (executeWithTimeout env (queryTimeoutOf e) sql).2
      = Except.error (timeoutMessage (timeoutSecondsOf e))
    ∧ (∀ kc, env.killAcquire = Except.ok kc →
        Event.getConn kc ∈ (executeWithTimeout env (queryTimeoutOf e) sql).1
        ∧ Event.query kc ("KILL QUERY " ++ toString cid)
            ∈ (executeWithTimeout env (queryTimeoutOf e) sql).1)
    ∧ (∀ env2 : ExecEnv, env2.mainAcquire = Except.ok c →
        env2.connIdQuery = Except.ok cid → env2.race = RaceOutcome.timeout →
        (executeWithTimeout env2 (queryTimeoutOf e) sql).2
          = (executeWithTimeout env (queryTimeoutOf e) sql).2)
    ∧ timeoutMessage (timeoutSecondsOf e)
        = "查询超时：查询执行超过 " ++ toString (timeoutSecondsOf e)
          ++ " 秒未响应，已自动终止。请重新尝试执行！"
    ∧ ∀ (stringify : Json → String) (i : Json) (args : ToolArgs),
        isNullish (some i) = false → args.sql = some sql →
        handleRequest stringify (execOf env (queryTimeoutOf e))
          (InputLine.parsed ⟨some i, some "tools/call", some ⟨some "query", some args⟩⟩)
        = (some (Response.failure i ⟨-32603, timeoutMessage (timeoutSecondsOf e)⟩), [some sql]) := by
  have hqs : queryTimeoutOf e / 1000 = timeoutSecondsOf e := by
    unfold queryTimeoutOf
    omega
  obtain ⟨ma, ciq, race, ka, kq⟩ := env
  dsimp only at hma hcid hrace
  subst hma
  subst hcid
  subst hrace
  refine ⟨by simp [executeWithTimeout, hqs], fun kc hkc => ?_, ?_, rfl, ?_⟩
  · dsimp only at hkc
    subst hkc
    cases kq <;> constructor <;> simp [executeWithTimeout, killEvents]
  · intro env2 hma2 hcid2 hrace2
    obtain ⟨ma2, ciq2, race2, ka2, kq2⟩ := env2
    dsimp only at hma2 hcid2 hrace2
    subst hma2
    subst hcid2
    subst hrace2
    simp [executeWithTimeout]
  · intro stringify i args hi hsql
    simp [handleRequest, hi, idValue, hsql, execOf, executeWithTimeout, hqs]

/-- Witness for C1 under a ten-second configured timeout, session id 42,
kill connection 2, a failing kill statement, and a query tool call with
id 7. -/
theorem timeout_path_kills_and_surfaces_error_witness :
    (⟨Except.ok 1, Except.ok 42, RaceOutcome.timeout, Except.ok 2,
        Except.error "kill refused"⟩ : ExecEnv).race = RaceOutcome.timeout
    ∧ (executeWithTimeout
        ⟨Except.ok 1, Except.ok 42, RaceOutcome.timeout, Except.ok 2, Except.error "kill refused"⟩
        (queryTimeoutOf (some 10)) "SELECT 1").2
      = Except.error (timeoutMessage (timeoutSecondsOf (some 10)))
    ∧ Event.getConn 2 ∈ (executeWithTimeout
        ⟨Except.ok 1, Except.ok 42, RaceOutcome.timeout, Except.ok 2, Except.error "kill refused"⟩
        (queryTimeoutOf (some 10)) "SELECT 1").1
    ∧ Event.query 2 ("KILL QUERY " ++ toString 42) ∈ (executeWithTimeout
        ⟨Except.ok 1, Except.ok 42, RaceOutcome.timeout, Except.ok 2, Except.error "kill refused"⟩
        (queryTimeoutOf (some 10)) "SELECT 1").1
    ∧ timeoutMessage (timeoutSecondsOf (some 10))
        = "查询超时：查询执行超过 " ++ toString (timeoutSecondsOf (some 10))
          ++ " 秒未响应，已自动终止。请重新尝试执行！"
    ∧ handleRequest (fun _ => "")
        (execOf
          ⟨Except.ok 1, Except.ok 42, RaceOutcome.timeout, Except.ok 2, Except.error "kill refused"⟩
          (queryTimeoutOf (some 10)))
        (InputLine.parsed ⟨some (Json.num 7), some "tools/call",
          some ⟨some "query", some ⟨some "SELECT 1", none⟩⟩⟩)
      = (some (Response.failure (Json.num 7)
          ⟨-32603, timeoutMessage (timeoutSecondsOf (some 10))⟩), [some "SELECT 1"]) := by
  have h := timeout_path_kills_and_surfaces_error (some 10)
    ⟨Except.ok 1, Except.ok 42, RaceOutcome.timeout, Except.ok 2, Except.error "kill refused"⟩
    "SELECT 1" 1 42 rfl rfl rfl
  exact ⟨rfl, h.1, (h.2.1 2 rfl).1, (h.2.1 2 rfl).2, h.2.2.2.1,
    h.2.2.2.2 (fun _ => "") (Json.num 7) ⟨some "SELECT 1", none⟩ rfl rfl⟩

end MysqlMcp
